import Mathlib

/-
Verification of the NamedType strong-typedef wrapper
(src/include/NamedType/named_type_impl.hpp).

The file embeds, as a deep model, the parts of the C++ type system that the
constructor constraints of the wrapper mention: a universe of scalar types,
a pair-like aggregate, opaque user classes and the wrapper type itself, the
list-initialization narrowing rules (dcl.init.list), the implicit standard
conversions, and the overload-resolution behaviour of the constructor set of
NamedType together with the assignment overloads of NamedType::argument.
Value-level behaviour (integer conversion modulo 2^n, the rounding of an
integer to binary64, storage and aliasing of the reference view) is embedded
as executable functions on Int and on explicit stores.
-/

namespace NamedTypeModel

/-- Deep model of the C++ types that can instantiate or be passed to the
wrapper: fixed-width integers, the two IEEE floating types, a pair-like
aggregate, opaque user classes (with or without a default constructor), and
the wrapper NamedType itself, identified by its representation type, whether
the representation is a reference (the ref view uses T-ref), and its tag. -/
inductive Ty where
  | i8 | i16 | i32 | i64
  | u8 | u16 | u32 | u64
  | f32 | f64
  | pair (a b : Ty)
  | user (hasDefault : Bool) (uid : Nat)
  | named (reprTy : Ty) (reprIsRef : Bool) (tag : Nat)
  deriving DecidableEq

/-- Integral types of the model (std::is_integral). -/
def isIntegral : Ty → Bool
  | .i8 | .i16 | .i32 | .i64 | .u8 | .u16 | .u32 | .u64 => true
  | _ => false

/-- Floating-point types of the model (std::is_floating_point). -/
def isFloat : Ty → Bool
  | .f32 | .f64 => true
  | _ => false

/-- Arithmetic scalar types. -/
def isScalar (t : Ty) : Bool := isIntegral t || isFloat t

/-- Signed integral types. -/
def isSigned : Ty → Bool
  | .i8 | .i16 | .i32 | .i64 => true
  | _ => false

/-- Model of sizeof, in bytes. -/
def tySize : Ty → Nat
  | .i8 | .u8 | .user _ _ => 1
  | .i16 | .u16 => 2
  | .i32 | .u32 | .f32 => 4
  | .i64 | .u64 | .f64 => 8
  | .pair a b => tySize a + tySize b
  | .named r _ _ => tySize r

/-- Bit width of the integral types, 0 elsewhere. -/
def intBits : Ty → Nat
  | .i8 | .u8 => 8
  | .i16 | .u16 => 16
  | .i32 | .u32 => 32
  | .i64 | .u64 => 64
  | _ => 0

/-- The type-based narrowing rule of list-initialization (dcl.init.list):
the conversion from src to dst is allowed inside braces iff it is not a
narrowing conversion. Integer to integer narrows unless the target can
represent every value of the source; any integer to floating conversion and
any floating to integer conversion narrows (for non-constant operands);
floating to floating narrows when precision shrinks. Non-scalar types admit
only the identity. -/
def nonNarrowConv (src dst : Ty) : Bool :=
  if src = dst then true
  else if isIntegral src && isIntegral dst then
    if isSigned dst then
      if isSigned src then decide (tySize src ≤ tySize dst)
      else decide (tySize src < tySize dst)
    else !isSigned src && decide (tySize src ≤ tySize dst)
  else if isFloat src && isFloat dst then decide (tySize src ≤ tySize dst)
  else false

/-- Default constructibility of the underlying type; the wrapper declares a
defaulted default constructor, which is usable exactly when the underlying
type has one (never for a reference representation). -/
def defaultConstructible : Ty → Bool
  | .pair a b => defaultConstructible a && defaultConstructible b
  | .user hd _ => hd
  | .named r isRef _ => !isRef && defaultConstructible r
  | _ => true

/-- Model of the concept at named_type_impl.hpp lines 60-61: requires
braces around T from declval of Args, i.e. the list-initialization of T from
the given arguments is well-formed, which forbids narrowing conversions.
For a scalar target this is a single non-narrowing conversion; for the
pair-like aggregate, elementwise non-narrowing conversions (or a copy);
other class types admit a copy, and zero arguments are value-init. -/
def NonNarrowingConstructible (T : Ty) (args : List Ty) : Bool :=
  match args with
  | [] => defaultConstructible T
  | [x] =>
    match T with
    | .pair a b => decide (x = Ty.pair a b)
    | _ => if isScalar T then nonNarrowConv x T else decide (x = T)
  | [x, y] =>
    match T with
    | .pair a b => nonNarrowConv x a && nonNarrowConv y b
    | _ => false
  | _ => false

/-- Model of the concept at named_type_impl.hpp lines 66-71: integral
source of at most 4 bytes, floating destination of at least 8 bytes. -/
def SafeIntToFloat (src dst : Ty) : Bool :=
  isIntegral src && isFloat dst && decide (tySize src ≤ 4) && decide (8 ≤ tySize dst)

/-- Implicit standard conversions of the model: identity, every
scalar-to-scalar arithmetic conversion (narrowing allowed outside braces),
and the one user-defined conversion the wrapper declares, operator ref,
from the owning wrapper to its reference view with the same representation
and the same tag. All constructors of the wrapper are explicit, so no other
implicit conversion reaches a wrapper type. -/
def implicitConv (src dst : Ty) : Bool :=
  if src = dst then true
  else if isScalar src && isScalar dst then true
  else
    match src, dst with
    | .named r rIsRef t, .named r2 r2IsRef t2 =>
        !rIsRef && r2IsRef && decide (r = r2) && decide (t = t2)
    | _, _ => false

/-- A constructor argument: its (decayed) type and whether it is an rvalue. -/
structure Arg where
  ty : Ty
  rvalue : Bool
  deriving DecidableEq

/-- The constructors of the wrapper: the defaulted one, the two taking the
underlying type (lines 82-90), the constrained forwarding one (lines
97-103), the safe int-to-float one (lines 107-113), and the implicitly
declared copy and move constructors of the wrapper class itself. -/
inductive Path where
  | defaultCtor | copyCtor | moveCtor | forwardCtor | safeCtor
  | wrapperCopy | wrapperMove
  deriving DecidableEq

/-- Overload resolution for parenthesized direct-initialization of
NamedType of T with the given tag, from the given argument list. An exact
match (the wrapper itself, the underlying type, or an identity binding to
the forwarding or safe constructor) beats a standard conversion; when both
reference-binding constructors survive only by a conversion, the rvalue
reference binds the converted temporary better than the const lvalue
reference, so the move constructor is selected. -/
def resolve (T : Ty) (tag : Nat) (args : List Arg) : Option Path :=
  match args with
  | [] => if defaultConstructible T then some Path.defaultCtor else none
  | [a] =>
    if a.ty = Ty.named T false tag then
      some (if a.rvalue then Path.wrapperMove else Path.wrapperCopy)
    else if a.ty = T then
      some (if a.rvalue then Path.moveCtor else Path.copyCtor)
    else if NonNarrowingConstructible T [a.ty] then
      some Path.forwardCtor
    else if SafeIntToFloat a.ty T then
      some Path.safeCtor
    else if implicitConv a.ty T then
      some Path.moveCtor
    else none
  | _ =>
    if NonNarrowingConstructible T (args.map Arg.ty) then some Path.forwardCtor
    else none

/-- Overload resolution for brace (list) initialization at the call site:
identical candidate set, but if the selected candidate needs a narrowing
conversion of the argument the program is ill-formed, so the converting
fallback additionally demands a non-narrowing conversion. -/
def resolveBrace (T : Ty) (tag : Nat) (args : List Arg) : Option Path :=
  match args with
  | [] => if defaultConstructible T then some Path.defaultCtor else none
  | [a] =>
    if a.ty = Ty.named T false tag then
      some (if a.rvalue then Path.wrapperMove else Path.wrapperCopy)
    else if a.ty = T then
      some (if a.rvalue then Path.moveCtor else Path.copyCtor)
    else if NonNarrowingConstructible T [a.ty] then
      some Path.forwardCtor
    else if SafeIntToFloat a.ty T then
      some Path.safeCtor
    else if implicitConv a.ty T && nonNarrowConv a.ty T then
      some Path.moveCtor
    else none
  | _ =>
    if NonNarrowingConstructible T (args.map Arg.ty) then some Path.forwardCtor
    else none

/-- Viability of the defaulted constructor (line 80). -/
def viableDefault (T : Ty) (args : List Arg) : Bool :=
  args.isEmpty && defaultConstructible T

/-- Viability of NamedType taking const-ref of T (lines 82-84): the const
lvalue reference binds an exact argument of either category, and also binds
the temporary produced by any implicit conversion to T. -/
def viableCopy (T : Ty) (args : List Arg) : Bool :=
  match args with
  | [a] => implicitConv a.ty T
  | _ => false

/-- Viability of NamedType taking rvalue-ref of T (lines 86-90): an exact
argument must be an rvalue; an argument of a different type converts to a
prvalue temporary, which the rvalue reference binds in either case. -/
def viableMove (T : Ty) (args : List Arg) : Bool :=
  match args with
  | [a] => if a.ty = T then a.rvalue else implicitConv a.ty T
  | _ => false

/-- Viability of the constrained forwarding constructor (lines 97-103):
two or more arguments, or one argument whose decayed type differs from T,
and the non-narrowing list-initialization requirement. -/
def viableForward (T : Ty) (args : List Arg) : Bool :=
  match args with
  | [] => false
  | [a] => !decide (a.ty = T) && NonNarrowingConstructible T [a.ty]
  | l => NonNarrowingConstructible T (l.map Arg.ty)

/-- Viability of the safe int-to-float constructor (lines 107-113): a
single argument satisfying SafeIntToFloat for which the non-narrowing
check of the forwarding constructor fails, by its explicit requires. -/
def viableSafe (T : Ty) (args : List Arg) : Bool :=
  match args with
  | [a] => SafeIntToFloat a.ty T && !NonNarrowingConstructible T [a.ty]
  | _ => false

/-- The two assignment overloads of NamedType::argument (lines 133-160):
the non-template one taking rvalue-ref of T, and the constrained template
one taking a forwarding reference. -/
inductive HelperOv where
  | exactRval | constrained
  deriving DecidableEq

/-- Overload resolution for assigning an argument to the named-argument
helper. An exact rvalue picks the non-template overload; any argument that
satisfies the NonNarrowingConstructible constraint binds the forwarding
reference of the template with an identity conversion, which beats the
conversion the non-template overload would need; an argument failing the
constraint but implicitly convertible to T still binds the rvalue
reference of the non-template overload through a converted temporary. -/
def helperResolve (T : Ty) (a : Arg) : Option HelperOv :=
  if a.ty = T then
    if a.rvalue then some HelperOv.exactRval
    else if NonNarrowingConstructible T [a.ty] then some HelperOv.constrained
    else none
  else if NonNarrowingConstructible T [a.ty] then some HelperOv.constrained
  else if implicitConv a.ty T then some HelperOv.exactRval
  else none

/-- Value of a C++ integer conversion to the integral type dst (conv.
integral): reduction modulo 2 to the bit width, two-complement wrap for
the signed targets. -/
def intConvVal (dst : Ty) (v : Int) : Int :=
  if isSigned dst then
    (v + 2 ^ (intBits dst - 1)).emod (2 ^ intBits dst) - 2 ^ (intBits dst - 1)
  else v.emod (2 ^ intBits dst)

/-- The value range of an integral type. -/
def intInRange (t : Ty) (v : Int) : Bool :=
  if isSigned t then
    decide (-(2 ^ (intBits t - 1) : Int) ≤ v) && decide (v < 2 ^ (intBits t - 1))
  else decide (0 ≤ v) && decide (v < 2 ^ intBits t)

/-- Value stored by the helper assignment for integral representation and
integral argument: whichever overload is selected, what reaches the stored
T is the C++ integer conversion of the argument value. -/
def helperAssignInt (T U : Ty) (v : Int) : Option Int :=
  if isIntegral T && isIntegral U then
    match helperResolve T ⟨U, true⟩ with
    | none => none
    | some _ => some (intConvVal T v)
  else none

/-- Conversion of an integer value to binary64 (round to nearest, ties to
even): exact whenever the magnitude needs at most 53 bits; otherwise the
value is rounded to the nearest multiple of the ulp for its binade. -/
def roundIntToF64 (v : Int) : Int :=
  let a := v.natAbs
  if a.size ≤ 53 then v
  else
    let s : Int := 2 ^ (a.size - 53)
    let q := v.fdiv s
    let r := v - q * s
    if 2 * r < s then q * s
    else if s < 2 * r then (q + 1) * s
    else if q % 2 = 0 then q * s else (q + 1) * s

/-- Value-level model of a constructed wrapper: it stores one value of the
underlying representation (member value_, line 163). -/
structure NamedVal (α : Type) (tag : Nat) where
  value_ : α

/-- Construction from a value of the exact underlying type stores it. -/
def NamedVal.fromValue (α : Type) (tag : Nat) (v : α) : NamedVal α tag := ⟨v⟩

/-- Two-argument forwarding construction of a pair-like representation
builds the stored value from the arguments positionally. -/
def NamedVal.fromArgs2 (α β : Type) (tag : Nat) (x : α) (y : β) :
    NamedVal (α × β) tag := ⟨(x, y)⟩

/-- Default construction stores a default-constructed underlying value. -/
def NamedVal.fromDefault (α : Type) (tag : Nat) (i : Inhabited α) :
    NamedVal α tag := ⟨i.default⟩

/-- Accessor get (lines 116-124): exposes the stored value. -/
def NamedVal.get {α : Type} {tag : Nat} (w : NamedVal α tag) : α := w.value_

/-- The compile-time signature of a wrapper instantiation: representation,
whether the representation is a reference, tag, and skill list. -/
structure WrapperSig where
  reprTy : Ty
  reprIsRef : Bool
  tag : Nat
  skills : List Nat
  deriving DecidableEq

/-- The companion ref type (line 127): NamedType over T-ref with the same
tag parameter and the same skills. -/
def refSig (s : WrapperSig) : WrapperSig := ⟨s.reprTy, true, s.tag, s.skills⟩

/-- A store assigning a value to every storage location. -/
abbrev Store (α : Type) := Nat → α

/-- Mutation of the storage at one location. -/
def Store.write {α : Type} (s : Store α) (l : Nat) (v : α) : Store α :=
  fun x => if x = l then v else s x

/-- An owning wrapper, identified by the location of its storage. -/
structure NTOwn (α : Type) (tag : Nat) where
  loc : Nat

/-- A reference-view wrapper: it holds a reference, modeled as the location
it aliases. -/
structure NTRefView (α : Type) (tag : Nat) where
  loc : Nat

/-- get on the owner reads its storage. -/
def NTOwn.get {α : Type} {tag : Nat} (s : Store α) (w : NTOwn α tag) : α :=
  s w.loc

/-- operator ref (lines 128-131) returns ref of value_, binding the
reference of the view to the storage of the owner, not to a copy. -/
def NTOwn.toRef {α : Type} {tag : Nat} (w : NTOwn α tag) : NTRefView α tag :=
  ⟨w.loc⟩

/-- get on the view reads through the aliased location. -/
def NTRefView.get {α : Type} {tag : Nat} (s : Store α) (r : NTRefView α tag) :
    α := s r.loc

/-- A wrapper type is never structurally equal to its own representation
type. -/
theorem named_ne_self (T : Ty) : ∀ (f : Bool) (t : Nat), Ty.named T f t ≠ T := by
  induction T with
  | i8 => exact fun f t h => Ty.noConfusion h
  | i16 => exact fun f t h => Ty.noConfusion h
  | i32 => exact fun f t h => Ty.noConfusion h
  | i64 => exact fun f t h => Ty.noConfusion h
  | u8 => exact fun f t h => Ty.noConfusion h
  | u16 => exact fun f t h => Ty.noConfusion h
  | u32 => exact fun f t h => Ty.noConfusion h
  | u64 => exact fun f t h => Ty.noConfusion h
  | f32 => exact fun f t h => Ty.noConfusion h
  | f64 => exact fun f t h => Ty.noConfusion h
  | pair a b iha ihb => exact fun f t h => Ty.noConfusion h
  | user hd uid => exact fun f t h => Ty.noConfusion h
  | named r rb rt ih =>
      exact fun f t h => ih rb rt (Ty.named.inj h).1

/-- Symmetric form of named_ne_self, convenient for simp. -/
theorem ne_named_self (T : Ty) (f : Bool) (t : Nat) : T ≠ Ty.named T f t :=
  fun h => named_ne_self T f t h.symm

/-- Integer values of magnitude at most 2 to the 32 convert to binary64
exactly. -/
theorem roundIntToF64_small (v : Int) (h : v.natAbs ≤ 4294967296) :
    roundIntToF64 v = v := by
  have h53 : (2 : Nat) ^ 53 = 9007199254740992 := by norm_num
  have hlt : v.natAbs < 2 ^ 53 := by omega
  have hsize : v.natAbs.size ≤ 53 := Nat.size_le.mpr hlt
  simp [roundIntToF64, hsize]

/-- Claim C1 (code bug evaluation): for a wrapper over a 32-bit unsigned
integer and a single 64-bit unsigned rvalue argument, the non-narrowing
check fails and the forwarding and safe constructors are not viable, yet
parenthesized construction still compiles: overload resolution selects the
move constructor through an implicit narrowing standard conversion, and the
stored value is the argument reduced modulo 2 to the 32, here 7. Only brace
initialization at the call site is rejected. -/
theorem narrowing_paren_construction_compiles :
    NonNarrowingConstructible Ty.u32 [Ty.u64] = false
    ∧ viableForward Ty.u32 [⟨Ty.u64, true⟩] = false
    ∧ viableSafe Ty.u32 [⟨Ty.u64, true⟩] = false
    ∧ resolve Ty.u32 0 [⟨Ty.u64, true⟩] = some Path.moveCtor
    ∧ resolveBrace Ty.u32 0 [⟨Ty.u64, true⟩] = none
    ∧ intConvVal Ty.u32 4294967303 = 7 := by
  decide

/-- Claim C2: for a wrapper over binary64 and a single integral argument of
at most 4 bytes, overload resolution selects the safe int-to-float
constructor, and the conversion of any value in the range of the argument
type to binary64 is exact, so get returns exactly that integer. -/
theorem safe_int_to_float_exact (ity : Ty) (h1 : isIntegral ity = true)
    (h2 : tySize ity ≤ 4) (tag : Nat) (rv : Bool) (v : Int)
    (hr : intInRange ity v = true) :
    resolve Ty.f64 tag [⟨ity, rv⟩] = some Path.safeCtor
    ∧ roundIntToF64 v = v
    ∧ (NamedVal.fromValue Int tag (roundIntToF64 v)).get = v := by
  have hv : v.natAbs ≤ 4294967296 := by
    cases ity <;> simp_all [intInRange, isSigned, intBits, isIntegral, tySize] <;> omega
  have hround := roundIntToF64_small v hv
  refine ⟨?_, hround, ?_⟩
  · cases ity <;>
      simp_all [resolve, NonNarrowingConstructible, nonNarrowConv, SafeIntToFloat,
        isScalar, isIntegral, isFloat, isSigned, tySize, implicitConv]
  · simpa [NamedVal.get, NamedVal.fromValue] using hround

/-- Claim C2 witness: the safe constructor is selected for a 32-bit signed
argument to a binary64 wrapper and the value 12345 is stored exactly. -/
theorem safe_int_to_float_exact_witness :
    resolve Ty.f64 0 [⟨Ty.i32, true⟩] = some Path.safeCtor
    ∧ roundIntToF64 12345 = 12345
    ∧ (NamedVal.fromValue Int 0 (roundIntToF64 12345)).get = 12345 :=
  safe_int_to_float_exact Ty.i32 rfl (by decide) 0 true 12345 (by decide)

/-- Claim C3 counterexample: a single 32-bit signed rvalue argument to a
wrapper over a 64-bit signed integer is a valid call (it resolves to the
forwarding constructor), yet three of the numbered construction paths are
simultaneously viable: the forwarding constructor by identity binding, and
the copy and move constructors through the implicit widening conversion. -/
theorem ctor_paths_multiply_viable :
    viableForward Ty.i64 [⟨Ty.i32, true⟩] = true
    ∧ viableCopy Ty.i64 [⟨Ty.i32, true⟩] = true
    ∧ viableMove Ty.i64 [⟨Ty.i32, true⟩] = true
    ∧ resolve Ty.i64 0 [⟨Ty.i32, true⟩] = some Path.forwardCtor := by
  decide

/-- Claim C3 (amended): the forwarding and safe constructors are never
simultaneously viable (their requires clauses are mutually exclusive on the
non-narrowing check); whenever the safe constructor is viable it is the one
selected; whenever the defaulted constructor is viable it is selected; and
for an exact-type argument the selection is determined purely by argument
shape, lvalue to copy and rvalue to move. Uniqueness of the outcome is by
overload ranking, not by mutual exclusion of all paths. -/
theorem ctor_resolution_selects_unique_path (T : Ty) (tag : Nat) (a : Arg)
    (args : List Arg) :
    (viableForward T args && viableSafe T args) = false
    ∧ (viableSafe T [a] = true → resolve T tag [a] = some Path.safeCtor)
    ∧ (viableDefault T args = true → resolve T tag args = some Path.defaultCtor)
    ∧ (∀ rv, resolve T tag [⟨T, rv⟩] =
        some (if rv then Path.moveCtor else Path.copyCtor)) := by
  refine ⟨?_, ?_, ?_, ?_⟩
  · cases args with
    | nil => simp [viableForward, viableSafe]
    | cons a1 rest =>
      cases rest with
      | nil =>
          cases hn : NonNarrowingConstructible T [a1.ty] <;>
            simp [viableForward, viableSafe, hn]
      | cons a2 rest2 => simp [viableForward, viableSafe]
  · intro hs
    obtain ⟨aty, arv⟩ := a
    have hs2 : SafeIntToFloat aty T = true ∧
        NonNarrowingConstructible T [aty] = false := by
      simpa [viableSafe] using hs
    obtain ⟨h1, h2⟩ := hs2
    have h3 := h1
    simp only [SafeIntToFloat, Bool.and_eq_true] at h3
    obtain ⟨⟨⟨hi, hf⟩, _⟩, _⟩ := h3
    cases aty <;> cases T <;>
      simp_all [resolve, isIntegral, isFloat]
  · intro hd
    have hd2 : args = [] ∧ defaultConstructible T = true := by
      cases args with
      | nil => simpa [viableDefault] using hd
      | cons x xs => simp [viableDefault] at hd
    obtain ⟨ha, hdc⟩ := hd2
    subst ha
    simp [resolve, hdc]
  · intro rv
    simp [resolve, ne_named_self]

/-- Claim C3 witness: a 32-bit signed rvalue argument to a binary64 wrapper
makes the safe constructor viable, and it is the selected path. -/
theorem ctor_resolution_selects_unique_path_witness :
    resolve Ty.f64 0 [⟨Ty.i32, true⟩] = some Path.safeCtor :=
  (ctor_resolution_selects_unique_path Ty.f64 0 ⟨Ty.i32, true⟩
    [⟨Ty.i32, true⟩]).2.1 (by decide)

/-- Claim C4 (code bug evaluation): assigning a 64-bit unsigned rvalue to
the named-argument helper of a wrapper over a 32-bit unsigned integer is
not rejected: the constrained template overload is removed by the failed
non-narrowing check, but the non-template overload taking rvalue-ref of T
binds the argument through an implicit narrowing conversion, so the
assignment compiles and stores the truncated value 7. For a value of the
exact type the helper agrees with direct construction. -/
theorem helper_narrowing_assignment_compiles :
    NonNarrowingConstructible Ty.u32 [Ty.u64] = false
    ∧ helperResolve Ty.u32 ⟨Ty.u64, true⟩ = some HelperOv.exactRval
    ∧ helperAssignInt Ty.u32 Ty.u64 4294967303 = some 7
    ∧ helperResolve Ty.u32 ⟨Ty.u32, true⟩ = some HelperOv.exactRval
    ∧ helperAssignInt Ty.u32 Ty.u32 7 = some 7 := by
  decide

/-- Claim C5: wrappers over the same representation with distinct tags are
mutually incompatible: there is no implicit conversion between them (so one
cannot be assigned to, compared with, or passed where the other is
expected), not even to the reference view of the other tag, and a wrapper
with one tag is not even explicitly constructible from the wrapper with the
other tag, since no constructor of the target wrapper is viable. -/
theorem distinct_tags_incompatible (r : Ty) (a b : Nat) (rv : Bool)
    (h : a ≠ b) :
    implicitConv (Ty.named r false a) (Ty.named r false b) = false
    ∧ implicitConv (Ty.named r false a) (Ty.named r true b) = false
    ∧ resolve r b [⟨Ty.named r false a, rv⟩] = none := by
  refine ⟨?_, ?_, ?_⟩
  · simp [implicitConv, isScalar, isIntegral, isFloat, h]
  · simp [implicitConv, isScalar, isIntegral, isFloat, h]
  · cases r <;>
      simp_all [resolve, NonNarrowingConstructible, nonNarrowConv, implicitConv,
        SafeIntToFloat, isScalar, isIntegral, isFloat, named_ne_self, ne_named_self]

/-- Claim C5 witness: for a double representation and tags 0 and 1, no
conversion and no construction crosses the tag boundary. -/
theorem distinct_tags_incompatible_witness :
    implicitConv (Ty.named Ty.f64 false 0) (Ty.named Ty.f64 false 1) = false
    ∧ implicitConv (Ty.named Ty.f64 false 0) (Ty.named Ty.f64 true 1) = false
    ∧ resolve Ty.f64 1 [⟨Ty.named Ty.f64 false 0, true⟩] = none :=
  distinct_tags_incompatible Ty.f64 0 1 true (by decide)

/-- Claim C6: constructing the wrapper from a value of the exact underlying
representation type always succeeds, resolving to the copy constructor for
an lvalue and the move constructor for an rvalue, and get on the resulting
wrapper returns exactly the value that was stored. -/
theorem exact_value_roundtrip (T : Ty) (tag : Nat) (rv : Bool) :
    resolve T tag [⟨T, rv⟩] = some (if rv then Path.moveCtor else Path.copyCtor)
    ∧ ∀ (α : Type) (tg : Nat) (v : α), (NamedVal.fromValue α tg v).get = v := by
  constructor
  · simp [resolve, ne_named_self]
  · intro α tg v; rfl

/-- Claim C7: the reference view produced by operator ref aliases the
storage of the owning wrapper: after any mutation of the owner, get on a
previously created view observes the new value, the view reads exactly the
location the owner reads, and the companion ref type keeps the same tag and
the same skill list. -/
theorem ref_view_aliases_storage (α : Type) (tag : Nat) (w : NTOwn α tag)
    (s : Store α) (v : α) :
    NTRefView.get (Store.write s w.loc v) w.toRef = v
    ∧ NTRefView.get s w.toRef = NTOwn.get s w
    ∧ ∀ (sig : WrapperSig), (refSig sig).tag = sig.tag
        ∧ (refSig sig).skills = sig.skills := by
  refine ⟨?_, rfl, fun sig => ⟨rfl, rfl⟩⟩
  simp [NTRefView.get, NTOwn.toRef, Store.write]

/-- Claim C8: a wrapper over a pair-like representation is constructible by
forwarding two arguments positionally whenever each argument converts to
its component without narrowing, resolving to the forwarding constructor,
and the stored value is built from exactly those arguments in order. -/
theorem multi_arg_forwarding (x y a b : Ty) (tag : Nat) (c1 c2 : Bool)
    (h1 : nonNarrowConv x a = true) (h2 : nonNarrowConv y b = true) :
    resolve (Ty.pair a b) tag [⟨x, c1⟩, ⟨y, c2⟩] = some Path.forwardCtor
    ∧ ∀ (γ δ : Type) (tg : Nat) (vx : γ) (vy : δ),
        (NamedVal.fromArgs2 γ δ tg vx vy).get = (vx, vy) := by
  constructor
  · simp [resolve, NonNarrowingConstructible, h1, h2]
  · intro γ δ tg vx vy; rfl

/-- Claim C8 witness: a pair of a 64-bit integer and a double is
constructible from a 32-bit integer and a double, positionally. -/
theorem multi_arg_forwarding_witness :
    resolve (Ty.pair Ty.i64 Ty.f64) 0 [⟨Ty.i32, true⟩, ⟨Ty.f64, false⟩] =
      some Path.forwardCtor
    ∧ ∀ (γ δ : Type) (tg : Nat) (vx : γ) (vy : δ),
        (NamedVal.fromArgs2 γ δ tg vx vy).get = (vx, vy) :=
  multi_arg_forwarding Ty.i32 Ty.f64 Ty.i64 Ty.f64 0 true false
    (by decide) (by decide)

/-- Claim C9: default construction of the wrapper resolves if and only if
the underlying representation type is default-constructible; when it is
not, no constructor is viable for the empty argument list; a user class
without a default constructor, or a pair containing one, is a concrete
failing case; and the defaulted constructor stores a default-constructed
underlying value. -/
theorem default_construction_iff (T : Ty) (tag : Nat) :
    (resolve T tag [] = some Path.defaultCtor ↔ defaultConstructible T = true)
    ∧ (defaultConstructible T = false → resolve T tag [] = none)
    ∧ defaultConstructible (Ty.user false 0) = false
    ∧ defaultConstructible (Ty.pair Ty.f64 (Ty.user false 1)) = false
    ∧ ∀ (α : Type) (i : Inhabited α) (tg : Nat),
        (NamedVal.fromDefault α tg i).get = i.default := by
  refine ⟨?_, ?_, by decide, by decide, fun α i tg => rfl⟩
  · cases hdc : defaultConstructible T <;> simp [resolve, hdc]
  · intro h; simp [resolve, h]

/-- Claim C9 witness: for a user class without a default constructor, the
empty argument list has no viable constructor. -/
theorem default_construction_iff_witness :
    resolve (Ty.user false 0) 0 [] = none :=
  (default_construction_iff (Ty.user false 0) 0).2.1 (by decide)

/-- Claim C10: for an rvalue argument whose type differs from T, is
implicitly convertible to T, and fails the non-narrowing constraint of the
template overload, assignment to the named-argument helper selects the
non-template overload taking rvalue-ref of T, binding through an implicit
conversion to T; for integral types the wrapper then holds the converted
value. -/
theorem helper_accepts_converted_rvalues (T U : Ty) (hne : U ≠ T)
    (hconv : implicitConv U T = true)
    (hnarrow : NonNarrowingConstructible T [U] = false) :
    helperResolve T ⟨U, true⟩ = some HelperOv.exactRval
    ∧ ((isIntegral T && isIntegral U) = true →
        ∀ v : Int, helperAssignInt T U v = some (intConvVal T v)) := by
  have hres : helperResolve T ⟨U, true⟩ = some HelperOv.exactRval := by
    simp [helperResolve, hne, hnarrow, hconv]
  refine ⟨hres, fun hint v => ?_⟩
  simp [helperAssignInt, hint, hres]

/-- Claim C10 witness: a 64-bit unsigned rvalue assigned to the helper of a
32-bit unsigned wrapper binds the non-template overload and stores the
converted value. -/
theorem helper_accepts_converted_rvalues_witness :
    helperResolve Ty.u32 ⟨Ty.u64, true⟩ = some HelperOv.exactRval
    ∧ helperAssignInt Ty.u32 Ty.u64 4294967303 =
        some (intConvVal Ty.u32 4294967303) :=
  ⟨(helper_accepts_converted_rvalues Ty.u32 Ty.u64 (by decide) (by decide)
      (by decide)).1,
   (helper_accepts_converted_rvalues Ty.u32 Ty.u64 (by decide) (by decide)
      (by decide)).2 (by decide) 4294967303⟩

end NamedTypeModel
